import Mathlib

/-!
Shallow embedding of `src/cheml/chem/Dragon.py` (class `Dragon`): the
configuration-script builder for the external Dragon descriptor tool.

The XML-like document built with `lxml.objectify` is modelled by the `Elem`
tree below; Python attribute values that may be `None` are `Option String`.
Exceptions are modelled by `PyError`; `warnings.warn` calls and file writes
performed by a `script_wizard` call are collected in an `Outcome` record.
The generation date produced by the external `std_datetime_str` utility is
threaded in as a parameter.
-/

namespace Cheml

/-- Python exceptions that the embedded code can raise. -/
inductive PyError where
  | valueError (msg : String)
  | attributeError (attr : String)
  | keyError (key : String)
  | indexError
  | typeError
  | ioError (path : String)
deriving DecidableEq, Repr

/-- An `lxml`-style element: a tag, an ordered attribute list and ordered
children.  Attribute values are `Option String` (`none` models Python
`None`). -/
inductive Elem where
  | mk (tag : String) (attrs : List (String × Option String)) (children : List Elem)

/-- The element's tag. -/
def Elem.tag : Elem → String
  | .mk t _ _ => t

/-- The element's attribute list. -/
def Elem.attrs : Elem → List (String × Option String)
  | .mk _ a _ => a

/-- The element's children, in document order. -/
def Elem.children : Elem → List Elem
  | .mk _ _ c => c

/-- `objectify` attribute-style access: the first child with the given tag
(`none` models the `AttributeError` case). -/
def Elem.findChild (e : Elem) (t : String) : Option Elem :=
  e.children.find? (fun c => c.tag == t)

/-- `element.attrib[k]`: `none` models the `KeyError` case. -/
def Elem.attr (e : Elem) (k : String) : Option (Option String) :=
  e.attrs.lookup k

/-- `_bool_formatter` from `Dragon.py`: booleans are serialized as the literal
strings "true"/"false". -/
def bool_formatter (b : Bool) : String :=
  if b then "true" else "false"

/-- Leaf element with a single string-valued `value` attribute. -/
def valEl (t v : String) : Elem := .mk t [("value", some v)] []

/-- `objectify.Element(tag, value=v)` for a possibly-`None` Python value:
`lxml` raises `TypeError` when an attribute value is `None`, so element
creation is fallible. -/
def mkValEl (t : String) (v : Option String) : Except PyError Elem :=
  match v with
  | none => .error .typeError
  | some s => .ok (valEl t s)

/-- The `Dragon` object: all constructor options of `Dragon.__init__`, plus
the attributes `script_wizard` sets later (modelled as `Option`, `none`
meaning "never assigned", so that access before assignment is an
`AttributeError`). -/
structure Dragon where
  version : Int
  CheckUpdates : Bool
  SaveLayout : Bool
  PreserveTemporaryProjects : Bool
  ShowWorksheet : Bool
  Decimal_Separator : String
  Missing_String : String
  DefaultMolFormat : String
  HelpBrowser : String
  RejectUnusualValence : Bool
  Add2DHydrogens : Bool
  MaxSRforAllCircuit : String
  MaxSR : String
  MaxSRDetour : String
  MaxAtomWalkPath : String
  LogPathWalk : Bool
  LogEdge : Bool
  Weights : List String
  SaveOnlyData : Bool
  SaveLabelsOnSeparateFile : Bool
  SaveFormatBlock : String
  SaveFormatSubBlock : String
  SaveExcludeMisVal : Bool
  SaveExcludeAllMisVal : Bool
  SaveExcludeConst : Bool
  SaveExcludeNearConst : Bool
  SaveExcludeStdDev : Bool
  SaveStdDevThreshold : String
  SaveExcludeCorrelated : Bool
  SaveCorrThreshold : String
  SaveExclusionOptionsToVariables : Bool
  SaveExcludeMisMolecules : Bool
  SaveExcludeRejectedMolecules : Bool
  blocks : List Int
  molInput : String
  molInputFormat : String
  molFile : Option String
  SaveStdOut : Bool
  SaveProject : Bool
  SaveProjectFile : String
  SaveFile : Bool
  SaveType : String
  SaveFilePath : String
  logMode : String
  logFile : String
  external : Bool
  fileName : Option String
  delimiter : String
  consecutiveDelimiter : Bool
  MissingValue : String
  RejectDisconnectedStrucuture : Bool
  RetainBiggestFragment : Bool
  DisconnectedCalculationOption : String
  RoundCoordinates : Bool
  RoundWeights : Bool
  RoundDescriptorValues : Bool
  knimemode : Bool
  output_directory : Option String := none
  dragon : Option Elem := none
  drs : Option String := none
  drs_name : Option String := none
  data_path : Option (Option String) := none

/-- `Dragon.__init__` defaults (the `version` argument is left open; the
Python default is `6`).  `blocks` defaults to `range(1,30)` = `[1, …, 29]`. -/
def defaultDragon (version : Int) : Dragon where
  version := version
  CheckUpdates := true
  SaveLayout := true
  PreserveTemporaryProjects := true
  ShowWorksheet := false
  Decimal_Separator := "."
  Missing_String := "NaN"
  DefaultMolFormat := "1"
  HelpBrowser := "/usr/bin/xdg-open"
  RejectUnusualValence := false
  Add2DHydrogens := false
  MaxSRforAllCircuit := "19"
  MaxSR := "35"
  MaxSRDetour := "30"
  MaxAtomWalkPath := "2000"
  LogPathWalk := true
  LogEdge := true
  Weights := ["Mass", "VdWVolume", "Electronegativity", "Polarizability", "Ionization", "I-State"]
  SaveOnlyData := false
  SaveLabelsOnSeparateFile := false
  SaveFormatBlock := "%b-%n.txt"
  SaveFormatSubBlock := "%b-%s-%n-%m.txt"
  SaveExcludeMisVal := false
  SaveExcludeAllMisVal := false
  SaveExcludeConst := false
  SaveExcludeNearConst := false
  SaveExcludeStdDev := false
  SaveStdDevThreshold := "0.0001"
  SaveExcludeCorrelated := false
  SaveCorrThreshold := "0.95"
  SaveExclusionOptionsToVariables := false
  SaveExcludeMisMolecules := false
  SaveExcludeRejectedMolecules := false
  blocks := (List.range 29).map (fun n => (n : Int) + 1)
  molInput := "stdin"
  molInputFormat := "SMILES"
  molFile := none
  SaveStdOut := false
  SaveProject := false
  SaveProjectFile := "Dragon_project.drp"
  SaveFile := true
  SaveType := "singlefile"
  SaveFilePath := "Dragon_descriptors.txt"
  logMode := "file"
  logFile := "Dragon_log.txt"
  external := false
  fileName := none
  delimiter := ","
  consecutiveDelimiter := false
  MissingValue := "NaN"
  RejectDisconnectedStrucuture := false
  RetainBiggestFragment := false
  DisconnectedCalculationOption := "0"
  RoundCoordinates := true
  RoundWeights := true
  RoundDescriptorValues := true
  knimemode := false

/-- The six-item weight vocabulary (identical for both versions,
`Dragon.py` lines 170 and 258). -/
def validWeights : List String :=
  ["Mass", "VdWVolume", "Electronegativity", "Polarizability", "Ionization", "I-State"]

/-- One `<weight name="…"/>` entry. -/
def weightElem (w : String) : Elem := .mk "weight" [("name", some w)] []

/-- The weight-validation loop: each weight is checked against the six-item
vocabulary; the first invalid one raises `ValueError`. -/
def buildWeightElems : List String → Except PyError (List Elem)
  | [] => .ok []
  | w :: ws =>
    if w ∈ validWeights then
      (buildWeightElems ws).map (fun es => weightElem w :: es)
    else
      .error (.valueError ("'" ++ w ++ "' is not a valid weight type."))

/-- One `<block id="…" SelectAll="true"/>` entry. -/
def blockElem (i : Int) : Elem :=
  .mk "block" [("id", some (toString i)), ("SelectAll", some "true")] []

/-- The block-validation loop: every id must lie in `1..hi` (`hi` = 29 for
version 6, 30 for version 7); the first out-of-range id raises
`ValueError`. -/
def buildBlockElems (hi : Int) : List Int → Except PyError (List Elem)
  | [] => .ok []
  | i :: is =>
    if i < 1 ∨ i > hi then
      .error (.valueError ("block id must be in range 1 to " ++ toString hi ++ "."))
    else
      (buildBlockElems hi is).map (fun es => blockElem i :: es)

/-- Allowed molecule input formats for version 6. -/
def molFormats6 : List String := ["SYBYL", "MDL", "HYPERCHEM", "SMILES", "MACROMODEL"]

/-- Allowed molecule input formats for version 7 (adds CML). -/
def molFormats7 : List String := ["SYBYL", "MDL", "HYPERCHEM", "SMILES", "CML", "MACROMODEL"]

/-- The `MOLFILES` section: `molInput` is always serialized first; "stdin"
requires a format from the allowed list, "file" serializes `molFile` (raising
`TypeError` from `lxml` when `molFile` is `None`, `Dragon.py` line 205),
anything else raises `ValueError`. -/
def buildMolfiles (formats : List String) (d : Dragon) : Except PyError Elem :=
  if d.molInput = "stdin" then
    if d.molInputFormat ∈ formats then
      .ok (.mk "MOLFILES" []
        [valEl "molInput" d.molInput, valEl "molInputFormat" d.molInputFormat])
    else
      .error (.valueError ("'" ++ d.molInputFormat ++
        "' is not a valid molInputFormat. Formats:[" ++
        String.intercalate "," (formats.map (fun f => "'" ++ f ++ "'")) ++ "]"))
  else if d.molInput = "file" then
    match mkValEl "molFile" d.molFile with
    | .error e => .error e
    | .ok mf => .ok (.mk "MOLFILES" [] [valEl "molInput" d.molInput, mf])
  else
    .error (.valueError "Enter a valid molInput: 'stdin' or 'file'")

/-- The element list of a version-6 `OPTIONS` section (`Dragon.py` lines
152-188), in source order with `Weights` between `LogEdge` and
`SaveOnlyData`; `ws` is the already-validated weight entry list. -/
def opts6fields (d : Dragon) (ws : List Elem) : List Elem :=
      [valEl "CheckUpdates" (bool_formatter d.CheckUpdates),
       valEl "SaveLayout" (bool_formatter d.SaveLayout),
       valEl "ShowWorksheet" (bool_formatter d.ShowWorksheet),
       valEl "Decimal_Separator" d.Decimal_Separator,
       valEl "Missing_String" d.Missing_String,
       valEl "DefaultMolFormat" d.DefaultMolFormat,
       valEl "HelpBrowser" d.HelpBrowser,
       valEl "RejectUnusualValence" (bool_formatter d.RejectUnusualValence),
       valEl "Add2DHydrogens" (bool_formatter d.Add2DHydrogens),
       valEl "MaxSRforAllCircuit" d.MaxSRforAllCircuit,
       valEl "MaxSR" d.MaxSR,
       valEl "MaxSRDetour" d.MaxSRDetour,
       valEl "MaxAtomWalkPath" d.MaxAtomWalkPath,
       valEl "LogPathWalk" (bool_formatter d.LogPathWalk),
       valEl "LogEdge" (bool_formatter d.LogEdge),
       Elem.mk "Weights" [] ws,
       valEl "SaveOnlyData" (bool_formatter d.SaveOnlyData),
       valEl "SaveLabelsOnSeparateFile" (bool_formatter d.SaveLabelsOnSeparateFile),
       valEl "SaveFormatBlock" d.SaveFormatBlock,
       valEl "SaveFormatSubBlock" d.SaveFormatSubBlock,
       valEl "SaveExcludeMisVal" (bool_formatter d.SaveExcludeMisVal),
       valEl "SaveExcludeAllMisVal" (bool_formatter d.SaveExcludeAllMisVal),
       valEl "SaveExcludeConst" (bool_formatter d.SaveExcludeConst),
       valEl "SaveExcludeNearConst" (bool_formatter d.SaveExcludeNearConst),
       valEl "SaveExcludeStdDev" (bool_formatter d.SaveExcludeStdDev),
       valEl "SaveStdDevThreshold" d.SaveStdDevThreshold,
       valEl "SaveExcludeCorrelated" (bool_formatter d.SaveExcludeCorrelated),
       valEl "SaveCorrThreshold" d.SaveCorrThreshold,
       valEl "SaveExclusionOptionsToVariables" (bool_formatter d.SaveExclusionOptionsToVariables),
       valEl "SaveExcludeMisMolecules" (bool_formatter d.SaveExcludeMisMolecules),
       valEl "SaveExcludeRejectedMolecules" (bool_formatter d.SaveExcludeRejectedMolecules)]

/-- The `OPTIONS` section of a version-6 script: validate the weights, then
assemble the fields. -/
def buildOptions6 (d : Dragon) : Except PyError Elem :=
  match buildWeightElems d.Weights with
  | .error e => .error e
  | .ok ws => .ok (.mk "OPTIONS" [] (opts6fields d ws))

/-- The element list of a version-7 `OPTIONS` section (`Dragon.py` lines
233-277); `ShowWorksheet`, `HelpBrowser` and `MaxSR` are commented out in
the source, and the version-7-only options appear in source order. -/
def opts7fields (d : Dragon) (ws : List Elem) : List Elem :=
      [valEl "CheckUpdates" (bool_formatter d.CheckUpdates),
       valEl "PreserveTemporaryProjects" (bool_formatter d.PreserveTemporaryProjects),
       valEl "SaveLayout" (bool_formatter d.SaveLayout),
       valEl "Decimal_Separator" d.Decimal_Separator,
       valEl "Missing_String" d.Missing_String,
       valEl "DefaultMolFormat" d.DefaultMolFormat,
       valEl "RejectDisconnectedStrucuture" (bool_formatter d.RejectDisconnectedStrucuture),
       valEl "RetainBiggestFragment" (bool_formatter d.RetainBiggestFragment),
       valEl "RejectUnusualValence" (bool_formatter d.RejectUnusualValence),
       valEl "Add2DHydrogens" (bool_formatter d.Add2DHydrogens),
       valEl "DisconnectedCalculationOption" d.DisconnectedCalculationOption,
       valEl "MaxSRforAllCircuit" d.MaxSRforAllCircuit,
       valEl "MaxSRDetour" d.MaxSRDetour,
       valEl "MaxAtomWalkPath" d.MaxAtomWalkPath,
       valEl "RoundCoordinates" (bool_formatter d.RoundCoordinates),
       valEl "RoundWeights" (bool_formatter d.RoundWeights),
       valEl "LogPathWalk" (bool_formatter d.LogPathWalk),
       valEl "LogEdge" (bool_formatter d.LogEdge),
       Elem.mk "Weights" [] ws,
       valEl "SaveOnlyData" (bool_formatter d.SaveOnlyData),
       valEl "SaveLabelsOnSeparateFile" (bool_formatter d.SaveLabelsOnSeparateFile),
       valEl "SaveFormatBlock" d.SaveFormatBlock,
       valEl "SaveFormatSubBlock" d.SaveFormatSubBlock,
       valEl "SaveExcludeMisVal" (bool_formatter d.SaveExcludeMisVal),
       valEl "SaveExcludeAllMisVal" (bool_formatter d.SaveExcludeAllMisVal),
       valEl "SaveExcludeConst" (bool_formatter d.SaveExcludeConst),
       valEl "SaveExcludeNearConst" (bool_formatter d.SaveExcludeNearConst),
       valEl "SaveExcludeStdDev" (bool_formatter d.SaveExcludeStdDev),
       valEl "SaveStdDevThreshold" d.SaveStdDevThreshold,
       valEl "SaveExcludeCorrelated" (bool_formatter d.SaveExcludeCorrelated),
       valEl "SaveCorrThreshold" d.SaveCorrThreshold,
       valEl "SaveExclusionOptionsToVariables" (bool_formatter d.SaveExclusionOptionsToVariables),
       valEl "SaveExcludeMisMolecules" (bool_formatter d.SaveExcludeMisMolecules),
       valEl "SaveExcludeRejectedMolecules" (bool_formatter d.SaveExcludeRejectedMolecules),
       valEl "RoundDescriptorValues" (bool_formatter d.RoundDescriptorValues)]

/-- The `OPTIONS` section of a version-7 script: validate the weights, then
assemble the fields. -/
def buildOptions7 (d : Dragon) : Except PyError Elem :=
  match buildWeightElems d.Weights with
  | .error e => .error e
  | .ok ws => .ok (.mk "OPTIONS" [] (opts7fields d ws))

/-- The `OUTPUT` section of a version-6 script: conditional
`SaveProjectFile`, `SaveType`/`SaveFilePath` and `logFile` entries mirror
the `if` statements at `Dragon.py` lines 212-220. -/
def buildOutput6 (od : String) (d : Dragon) : Elem :=
  .mk "OUTPUT" []
    ([valEl "SaveStdOut" (bool_formatter d.SaveStdOut),
      valEl "SaveProject" (bool_formatter d.SaveProject)]
     ++ (if d.SaveProject then [valEl "SaveProjectFile" d.SaveProjectFile] else [])
     ++ [valEl "SaveFile" (bool_formatter d.SaveFile)]
     ++ (if d.SaveFile then
          [valEl "SaveType" d.SaveType, valEl "SaveFilePath" (od ++ d.SaveFilePath)]
         else [])
     ++ [valEl "logMode" d.logMode]
     ++ (if d.logMode = "file" then [valEl "logFile" (od ++ d.logFile)] else []))

/-- The `OUTPUT` section of a version-7 script: as in version 6 but with a
leading `knimemode` entry (`Dragon.py` line 299). -/
def buildOutput7 (od : String) (d : Dragon) : Elem :=
  .mk "OUTPUT" []
    ([valEl "knimemode" (bool_formatter d.knimemode),
      valEl "SaveStdOut" (bool_formatter d.SaveStdOut),
      valEl "SaveProject" (bool_formatter d.SaveProject)]
     ++ (if d.SaveProject then [valEl "SaveProjectFile" d.SaveProjectFile] else [])
     ++ [valEl "SaveFile" (bool_formatter d.SaveFile)]
     ++ (if d.SaveFile then
          [valEl "SaveType" d.SaveType, valEl "SaveFilePath" (od ++ d.SaveFilePath)]
         else [])
     ++ [valEl "logMode" d.logMode]
     ++ (if d.logMode = "file" then [valEl "logFile" (od ++ d.logFile)] else []))

/-- The optional `EXTERNAL` section: present exactly when `d.external`, with
its four fields in source order (`Dragon.py` lines 222-227 / 312-317).
Creating the `fileName` element with a `None` value raises `TypeError` from
`lxml` (lines 224/314). -/
def buildExternal (d : Dragon) : Except PyError (List Elem) :=
  if d.external then
    match mkValEl "fileName" d.fileName with
    | .error e => .error e
    | .ok fn =>
      .ok [Elem.mk "EXTERNAL" []
        [fn,
         valEl "delimiter" d.delimiter,
         valEl "consecutiveDelimiter" (bool_formatter d.consecutiveDelimiter),
         valEl "MissingValue" d.MissingValue]]
  else .ok []

/-- Assemble a version-6 document from its already-built sections: root
attributes from line 150, sections in order `OPTIONS`, `DESCRIPTORS`,
`MOLFILES`, `OUTPUT` (+ optional `EXTERNAL`, passed in as `ext`). -/
def doc6 (gd od : String) (d : Dragon) (opts : Elem) (bls : List Elem) (mol : Elem)
    (ext : List Elem) : Elem :=
  .mk "DRAGON"
    [("version", some (toString d.version ++ ".0.0")),
     ("script_version", some "1"),
     ("generation_date", some (gd.replace "-" "/"))]
    ([opts, Elem.mk "DESCRIPTORS" [] bls, mol, buildOutput6 od d] ++ ext)

/-- Assemble a version-7 document: root attributes from line 231 (with the
extra `description` attribute). -/
def doc7 (gd od : String) (d : Dragon) (opts : Elem) (bls : List Elem) (mol : Elem)
    (ext : List Elem) : Elem :=
  .mk "DRAGON"
    [("version", some (toString d.version ++ ".0.0")),
     ("description", some "Dragon7 - FP1 - MD5270"),
     ("script_version", some "1"),
     ("generation_date", some (gd.replace "-" "/"))]
    ([opts, Elem.mk "DESCRIPTORS" [] bls, mol, buildOutput7 od d] ++ ext)

/-- The full version-6 document, validations and element creations performed
in source order. -/
def buildDoc6 (gd od : String) (d : Dragon) : Except PyError Elem :=
  match buildOptions6 d with
  | .error e => .error e
  | .ok opts =>
    match buildBlockElems 29 d.blocks with
    | .error e => .error e
    | .ok bls =>
      match buildMolfiles molFormats6 d with
      | .error e => .error e
      | .ok mol =>
        match buildExternal d with
        | .error e => .error e
        | .ok ext => .ok (doc6 gd od d opts bls mol ext)

/-- The full version-7 document: block range 1-30, CML allowed as input
format. -/
def buildDoc7 (gd od : String) (d : Dragon) : Except PyError Elem :=
  match buildOptions7 d with
  | .error e => .error e
  | .ok opts =>
    match buildBlockElems 30 d.blocks with
    | .error e => .error e
    | .ok bls =>
      match buildMolfiles molFormats7 d with
      | .error e => .error e
      | .ok mol =>
        match buildExternal d with
        | .error e => .error e
        | .ok ext => .ok (doc7 gd od d opts bls mol ext)

/-- The last character of a string (`s[-1]` in Python); `none` for the empty
string, where Python raises `IndexError`. -/
def lastChar (s : String) : Option Char := s.data.getLast?

/-- Output-directory normalization (`Dragon.py` lines 141-144): append a
`'/'` exactly when the last character is not already `'/'`. -/
def normDir (od : String) : String :=
  if lastChar od = some '/' then od else od ++ "/"

/-- Everything one `script_wizard` call produces besides the mutated object:
the Python-level result (`ok` = normal return of `self`), the warnings
emitted via `warnings.warn`, and the files written (path with document). -/
structure Outcome where
  result : Except PyError Dragon
  warnings : List String
  written : List (String × Elem)

/-- Warning text for an unsupported version (`Dragon.py` line 321). -/
def versionWarnMsg : String :=
  "Only version 6 and version 7 (newest version) are available in this module."

/-- Warning text for a loaded script whose version attribute does not start
with 6 or 7 (`Dragon.py` line 331). -/
def loadWarnMsg : String :=
  "Dragon script is not labeled to the newest vesions of Dragon, 6 or 7. This may causes some problems."

/-- The four mandatory section tags (`Dragon.py` line 333). -/
def mandatoryNodes : List String := ["OPTIONS", "DESCRIPTORS", "MOLFILES", "OUTPUT"]

/-- Error text when a loaded script misses a mandatory node
(`Dragon.py` line 336, with Python `str(list)` rendering). -/
def mandatoryErrMsg : String :=
  "Dragon script does not contain all mandatory nodes, which are:" ++
  "['OPTIONS', 'DESCRIPTORS', 'MOLFILES', 'OUTPUT']"

/-- `set(reported).issuperset(set(mandatory))` over the document's direct
children tags (`Dragon.py` lines 334-335). -/
def mandatoryOk (doc : Elem) : Bool :=
  mandatoryNodes.all (fun t => (doc.children.map Elem.tag).contains t)

/-- `Dragon.py` line 339,
`self.data_path = self.dragon.OUTPUT.SaveFilePath.attrib['value']`:
attribute-style child access raises `AttributeError` when the child (or
`self.dragon` itself) is missing, and `attrib['value']` raises `KeyError`
when the attribute is missing. -/
def dataPathReadback (d : Dragon) : Except PyError Dragon :=
  match d.dragon with
  | none => .error (.attributeError "dragon")
  | some doc =>
    match doc.findChild "OUTPUT" with
    | none => .error (.attributeError "OUTPUT")
    | some outp =>
      match outp.findChild "SaveFilePath" with
      | none => .error (.attributeError "SaveFilePath")
      | some sfp =>
        match sfp.attr "value" with
        | none => .error (.keyError "value")
        | some v => .ok { d with data_path := some v }

/-- The fixed script file name set by `_save_script` (`Dragon.py`
line 345). -/
def drsName : String := "Dragon_script.drs"

/-- The version-7 rewrite of `Missing_String` (`Dragon.py` line 239):
`"NaN"` is silently replaced by `"na"` on the object itself. -/
def msAdj (s : String) : String := if s = "NaN" then "na" else s

/-- The fresh-construction branch of `script_wizard` (`Dragon.py` lines
148-322).  `od` is the already-normalized output directory and `d` already
carries it.  A supported version builds and persists the document
(`_save_script`, line 228/318); any other version only emits a warning,
leaving `self.dragon` untouched. -/
def freshNew (gd od : String) (d : Dragon) : Outcome :=
  if d.version = 6 then
    match buildDoc6 gd od d with
    | .error e => ⟨.error e, [], []⟩
    | .ok doc =>
      ⟨.ok { d with dragon := some doc, drs_name := some drsName }, [],
       [(od ++ drsName, doc)]⟩
  else if d.version = 7 then
    let d := { d with Missing_String := msAdj d.Missing_String }
    match buildDoc7 gd od d with
    | .error e => ⟨.error e, [], []⟩
    | .ok doc =>
      ⟨.ok { d with dragon := some doc, drs_name := some drsName }, [],
       [(od ++ drsName, doc)]⟩
  else
    ⟨.ok d, [versionWarnMsg], []⟩

/-- The load-existing-script branch of `script_wizard` (`Dragon.py` lines
324-338): parse the file, warn when the version attribute's first character
is neither 6 nor 7, and raise when a mandatory node is missing. -/
def loadExisting (fs : String → Option Elem) (d : Dragon) (script : String) : Outcome :=
  match fs script with
  | none => ⟨.error (.ioError script), [], []⟩
  | some doc =>
    let d := { d with dragon := some doc }
    match doc.attr "version" with
    | none => ⟨.error (.keyError "version"), [], []⟩
    | some none => ⟨.error .typeError, [], []⟩
    | some (some vs) =>
      match vs.data.head? with
      | none => ⟨.error .indexError, [], []⟩
      | some c =>
        let warns := if c = '6' ∨ c = '7' then [] else [loadWarnMsg]
        if mandatoryOk doc then
          ⟨.ok { d with drs := some script }, warns, []⟩
        else
          ⟨.error (.valueError mandatoryErrMsg), warns, []⟩

/-- Line 339, applied to whatever the selected branch produced: when the
branch has not raised, `self.data_path` is (re)read from the current
document. -/
def withReadback (o : Outcome) : Outcome :=
  match o.result with
  | .error _ => o
  | .ok d' => { o with result := dataPathReadback d' }

/-- Full `script_wizard`: normalize and store the output directory (lines
141-146), dispatch on `script` (`'new'` vs. a file path), then run the
unconditional `data_path` read-back of line 339. -/
def script_wizard (gd : String) (fs : String → Option Elem) (d : Dragon)
    (script output_directory : String) : Outcome :=
  match lastChar output_directory with
  | none => ⟨.error .indexError, [], []⟩
  | some _ =>
    let od := normDir output_directory
    let d := { d with output_directory := some od }
    withReadback
      (if script = "new" then freshNew gd od d else loadExisting fs d script)

/-! ### Unfolding and characterization lemmas -/

/-- Unfolding of `script_wizard` for a non-empty output directory. -/
lemma script_wizard_eq (gd : String) (fs : String → Option Elem) (d : Dragon)
    (script od : String) (c : Char) (hlc : lastChar od = some c) :
    script_wizard gd fs d script od =
      withReadback
        (if script = "new" then
          freshNew gd (normDir od) { d with output_directory := some (normDir od) }
         else
          loadExisting fs { d with output_directory := some (normDir od) } script) := by
  unfold script_wizard
  rw [hlc]

/-- `script_wizard` on an empty output directory raises `IndexError` at
`output_directory[-1]`. -/
lemma script_wizard_empty (gd : String) (fs : String → Option Elem) (d : Dragon)
    (script od : String) (hlc : lastChar od = none) :
    script_wizard gd fs d script od = ⟨.error .indexError, [], []⟩ := by
  unfold script_wizard
  rw [hlc]

/-- The version-6 branch of fresh construction. -/
lemma freshNew6 (gd od : String) (d : Dragon) (h6 : d.version = 6) :
    freshNew gd od d =
      match buildDoc6 gd od d with
      | .error e => ⟨.error e, [], []⟩
      | .ok doc =>
        ⟨.ok { d with dragon := some doc, drs_name := some drsName }, [],
         [(od ++ drsName, doc)]⟩ := by
  unfold freshNew
  rw [if_pos h6]

/-- The version-7 branch of fresh construction (with the `Missing_String`
rewrite applied to the object first). -/
lemma freshNew7 (gd od : String) (d : Dragon) (h7 : d.version = 7) :
    freshNew gd od d =
      match buildDoc7 gd od { d with Missing_String := msAdj d.Missing_String } with
      | .error e => ⟨.error e, [], []⟩
      | .ok doc =>
        ⟨.ok { d with
                 Missing_String := msAdj d.Missing_String
                 dragon := some doc
                 drs_name := some drsName }, [],
         [(od ++ drsName, doc)]⟩ := by
  unfold freshNew
  rw [if_neg (by rw [h7]; decide), if_pos h7]

/-- The unsupported-version branch: only a warning, no document, no write. -/
lemma freshNewOther (gd od : String) (d : Dragon) (h6 : d.version ≠ 6) (h7 : d.version ≠ 7) :
    freshNew gd od d = ⟨.ok d, [versionWarnMsg], []⟩ := by
  unfold freshNew
  rw [if_neg h6, if_neg h7]

/-- A version-6 document build succeeds once all four built parts do. -/
lemma buildDoc6_ok (gd od : String) (d : Dragon) (ws : List Elem) (bls : List Elem) (mol : Elem)
    (ext : List Elem)
    (hw : buildWeightElems d.Weights = .ok ws)
    (hb : buildBlockElems 29 d.blocks = .ok bls)
    (hm : buildMolfiles molFormats6 d = .ok mol)
    (hx : buildExternal d = .ok ext) :
    buildDoc6 gd od d = .ok (doc6 gd od d (.mk "OPTIONS" [] (opts6fields d ws)) bls mol ext) := by
  unfold buildDoc6 buildOptions6
  rw [hw, hb, hm, hx]

/-- A version-7 document build succeeds once all four built parts do. -/
lemma buildDoc7_ok (gd od : String) (d : Dragon) (ws : List Elem) (bls : List Elem) (mol : Elem)
    (ext : List Elem)
    (hw : buildWeightElems d.Weights = .ok ws)
    (hb : buildBlockElems 30 d.blocks = .ok bls)
    (hm : buildMolfiles molFormats7 d = .ok mol)
    (hx : buildExternal d = .ok ext) :
    buildDoc7 gd od d = .ok (doc7 gd od d (.mk "OPTIONS" [] (opts7fields d ws)) bls mol ext) := by
  unfold buildDoc7 buildOptions7
  rw [hw, hb, hm, hx]

/-- A failed weight validation aborts the version-6 build with that error. -/
lemma buildDoc6_errW (gd od : String) (d : Dragon) (e : PyError)
    (hw : buildWeightElems d.Weights = .error e) :
    buildDoc6 gd od d = .error e := by
  unfold buildDoc6 buildOptions6
  rw [hw]

/-- A failed weight validation aborts the version-7 build with that error. -/
lemma buildDoc7_errW (gd od : String) (d : Dragon) (e : PyError)
    (hw : buildWeightElems d.Weights = .error e) :
    buildDoc7 gd od d = .error e := by
  unfold buildDoc7 buildOptions7
  rw [hw]

/-- A failed block validation aborts the version-6 build with that error. -/
lemma buildDoc6_errB (gd od : String) (d : Dragon) (ws : List Elem) (e : PyError)
    (hw : buildWeightElems d.Weights = .ok ws)
    (hb : buildBlockElems 29 d.blocks = .error e) :
    buildDoc6 gd od d = .error e := by
  unfold buildDoc6 buildOptions6
  rw [hw, hb]

/-- A failed block validation aborts the version-7 build with that error. -/
lemma buildDoc7_errB (gd od : String) (d : Dragon) (ws : List Elem) (e : PyError)
    (hw : buildWeightElems d.Weights = .ok ws)
    (hb : buildBlockElems 30 d.blocks = .error e) :
    buildDoc7 gd od d = .error e := by
  unfold buildDoc7 buildOptions7
  rw [hw, hb]

/-- A failed MOLFILES validation aborts the version-6 build with that error. -/
lemma buildDoc6_errM (gd od : String) (d : Dragon) (ws : List Elem) (bls : List Elem) (e : PyError)
    (hw : buildWeightElems d.Weights = .ok ws)
    (hb : buildBlockElems 29 d.blocks = .ok bls)
    (hm : buildMolfiles molFormats6 d = .error e) :
    buildDoc6 gd od d = .error e := by
  unfold buildDoc6 buildOptions6
  rw [hw, hb, hm]

/-- A failed MOLFILES validation aborts the version-7 build with that error. -/
lemma buildDoc7_errM (gd od : String) (d : Dragon) (ws : List Elem) (bls : List Elem) (e : PyError)
    (hw : buildWeightElems d.Weights = .ok ws)
    (hb : buildBlockElems 30 d.blocks = .ok bls)
    (hm : buildMolfiles molFormats7 d = .error e) :
    buildDoc7 gd od d = .error e := by
  unfold buildDoc7 buildOptions7
  rw [hw, hb, hm]

/-- Weight validation succeeds exactly on vocabulary members, producing one
entry per weight in order (duplicates kept). -/
lemma buildWeightElems_ok (ws : List String) (h : ∀ w ∈ ws, w ∈ validWeights) :
    buildWeightElems ws = .ok (ws.map weightElem) := by
  induction ws with
  | nil => rfl
  | cons w tl ih =>
    unfold buildWeightElems
    rw [if_pos (h w (List.mem_cons_self w tl)), ih (fun x hx => h x (List.mem_cons_of_mem w hx))]
    rfl

/-- A weight outside the vocabulary anywhere in the list makes weight
validation raise a `ValueError`. -/
lemma buildWeightElems_err (ws : List String) (h : ∃ w ∈ ws, w ∉ validWeights) :
    ∃ m, buildWeightElems ws = .error (.valueError m) := by
  induction ws with
  | nil => simp at h
  | cons w tl ih =>
    by_cases hw : w ∈ validWeights
    · obtain ⟨x, hx, hxv⟩ := h
      rcases List.mem_cons.mp hx with rfl | hx'
      · exact absurd hw hxv
      · obtain ⟨m, hm⟩ := ih ⟨x, hx', hxv⟩
        refine ⟨m, ?_⟩
        unfold buildWeightElems
        rw [if_pos hw, hm]
        rfl
    · exact ⟨_, by unfold buildWeightElems; rw [if_neg hw]⟩

/-- Block validation succeeds exactly when every id is in `1..hi`. -/
lemma buildBlockElems_ok (hi : Int) (bs : List Int) (h : ∀ i ∈ bs, 1 ≤ i ∧ i ≤ hi) :
    buildBlockElems hi bs = .ok (bs.map blockElem) := by
  induction bs with
  | nil => rfl
  | cons b tl ih =>
    unfold buildBlockElems
    have hb := h b (List.mem_cons_self b tl)
    rw [if_neg (by omega), ih (fun x hx => h x (List.mem_cons_of_mem b hx))]
    rfl

/-- An out-of-range id anywhere in the list makes block validation raise a
`ValueError`. -/
lemma buildBlockElems_err (hi : Int) (bs : List Int) (h : ∃ i ∈ bs, i < 1 ∨ i > hi) :
    ∃ m, buildBlockElems hi bs = .error (.valueError m) := by
  induction bs with
  | nil => simp at h
  | cons b tl ih =>
    by_cases hb : b < 1 ∨ b > hi
    · exact ⟨_, by unfold buildBlockElems; rw [if_pos hb]⟩
    · obtain ⟨x, hx, hxv⟩ := h
      rcases List.mem_cons.mp hx with rfl | hx'
      · exact absurd hxv hb
      · obtain ⟨m, hm⟩ := ih ⟨x, hx', hxv⟩
        refine ⟨m, ?_⟩
        unfold buildBlockElems
        rw [if_neg hb, hm]
        rfl



lemma withReadback_written (o : Outcome) : (withReadback o).written = o.written := by
  unfold withReadback
  cases o.result <;> rfl

lemma withReadback_warnings (o : Outcome) : (withReadback o).warnings = o.warnings := by
  unfold withReadback
  cases o.result <;> rfl

lemma withReadback_ok_inv (o : Outcome) (d' : Dragon)
    (h : (withReadback o).result = .ok d') :
    ∃ d₁, o.result = .ok d₁ ∧ dataPathReadback d₁ = .ok d' := by
  unfold withReadback at h
  cases ho : o.result with
  | error e => simp only [ho] at h; simp at h
  | ok d₁ => simp only [ho] at h; exact ⟨d₁, rfl, h⟩

lemma dataPathReadback_no_valueError (d : Dragon) (m : String) :
    dataPathReadback d ≠ .error (.valueError m) := by
  intro h
  unfold dataPathReadback at h
  cases hd : d.dragon with
  | none => simp [hd] at h
  | some doc =>
    simp only [hd] at h
    cases ho : doc.findChild "OUTPUT" with
    | none => simp [ho] at h
    | some outp =>
      simp only [ho] at h
      cases hs : outp.findChild "SaveFilePath" with
      | none => simp [hs] at h
      | some sfp =>
        simp only [hs] at h
        cases hv : sfp.attr "value" with
        | none => simp [hv] at h
        | some v => simp [hv] at h

lemma withReadback_valueError (o : Outcome) (m : String)
    (h : (withReadback o).result = .error (.valueError m)) :
    o.result = .error (.valueError m) := by
  unfold withReadback at h
  cases ho : o.result with
  | error e => simp only [ho] at h; exact h
  | ok d₁ =>
    simp only [ho] at h
    exact absurd h (dataPathReadback_no_valueError d₁ m)

lemma dataPathReadback_shape (d d' : Dragon) (h : dataPathReadback d = .ok d') :
    ∃ doc outp sfp v, d.dragon = some doc ∧ doc.findChild "OUTPUT" = some outp ∧
      outp.findChild "SaveFilePath" = some sfp ∧ sfp.attr "value" = some v ∧
      d' = { d with data_path := some v } := by
  unfold dataPathReadback at h
  cases hd : d.dragon with
  | none => simp [hd] at h
  | some doc =>
    simp only [hd] at h
    cases ho : doc.findChild "OUTPUT" with
    | none => simp [ho] at h
    | some outp =>
      simp only [ho] at h
      cases hs : outp.findChild "SaveFilePath" with
      | none => simp [hs] at h
      | some sfp =>
        simp only [hs] at h
        cases hv : sfp.attr "value" with
        | none => simp [hv] at h
        | some v =>
          simp only [hv] at h
          exact ⟨doc, outp, sfp, v, rfl, ho, hs, hv, (Except.ok.inj h).symm⟩

lemma dataPathReadback_of_facts (d : Dragon) (doc outp sfp : Elem) (v : Option String)
    (hd : d.dragon = some doc) (ho : doc.findChild "OUTPUT" = some outp)
    (hs : outp.findChild "SaveFilePath" = some sfp) (hv : sfp.attr "value" = some v) :
    dataPathReadback d = .ok { d with data_path := some v } := by
  unfold dataPathReadback
  simp only [hd, ho, hs, hv]



lemma tag_mk (t : String) (a : List (String × Option String)) (c : List Elem) :
    (Elem.mk t a c).tag = t := rfl

lemma loadExisting_written (fs : String → Option Elem) (d : Dragon) (script : String) :
    (loadExisting fs d script).written = [] := by
  unfold loadExisting
  repeat' split
  all_goals rfl

lemma freshNew_err_written (gd od : String) (d : Dragon) (e : PyError)
    (h : (freshNew gd od d).result = .error e) :
    (freshNew gd od d).written = [] := by
  by_cases h6 : d.version = 6
  · rw [freshNew6 gd od d h6] at h ⊢
    cases hb : buildDoc6 gd od d with
    | error e' => simp only [hb]
    | ok doc => simp only [hb] at h; simp at h
  · by_cases h7 : d.version = 7
    · rw [freshNew7 gd od d h7] at h ⊢
      cases hb : buildDoc7 gd od { d with Missing_String := msAdj d.Missing_String } with
      | error e' => simp only [hb]
      | ok doc => simp only [hb] at h; simp at h
    · rw [freshNewOther gd od d h6 h7] at h
      simp at h

lemma freshNew_ok_od (gd od : String) (d d₁ : Dragon)
    (h : (freshNew gd od d).result = .ok d₁) :
    d₁.output_directory = d.output_directory := by
  by_cases h6 : d.version = 6
  · rw [freshNew6 gd od d h6] at h
    cases hb : buildDoc6 gd od d with
    | error e' => simp only [hb] at h; simp at h
    | ok doc =>
      simp only [hb] at h
      simp only [Except.ok.injEq] at h
      rw [← h]
  · by_cases h7 : d.version = 7
    · rw [freshNew7 gd od d h7] at h
      cases hb : buildDoc7 gd od { d with Missing_String := msAdj d.Missing_String } with
      | error e' => simp only [hb] at h; simp at h
      | ok doc =>
        simp only [hb] at h
        simp only [Except.ok.injEq] at h
        rw [← h]
    · rw [freshNewOther gd od d h6 h7] at h
      simp only [Except.ok.injEq] at h
      rw [← h]

lemma loadExisting_ok_od (fs : String → Option Elem) (d : Dragon) (script : String) (d₁ : Dragon)
    (h : (loadExisting fs d script).result = .ok d₁) :
    d₁.output_directory = d.output_directory := by
  unfold loadExisting at h
  repeat' split at h
  all_goals simp only [Except.ok.injEq] at h
  all_goals first
    | (rw [← h])
    | exact absurd h (by simp)

lemma buildMolfiles_ok_tag (fmts : List String) (d : Dragon) (mol : Elem)
    (h : buildMolfiles fmts d = .ok mol) : mol.tag = "MOLFILES" := by
  unfold buildMolfiles at h
  repeat' split at h
  all_goals first
    | (simp only [Except.ok.injEq] at h; rw [← h]; rfl)
    | (exact absurd h (by simp))

lemma mandatoryOk_doc6 (gd od : String) (d : Dragon) (opts : Elem) (bls : List Elem) (mol : Elem)
    (ext : List Elem) (hopts : opts.tag = "OPTIONS") (hmol : mol.tag = "MOLFILES") :
    mandatoryOk (doc6 gd od d opts bls mol ext) = true := by
  unfold mandatoryOk doc6 mandatoryNodes
  simp [buildOutput6, tag_mk, hopts, hmol, Elem.children]

lemma mandatoryOk_doc7 (gd od : String) (d : Dragon) (opts : Elem) (bls : List Elem) (mol : Elem)
    (ext : List Elem) (hopts : opts.tag = "OPTIONS") (hmol : mol.tag = "MOLFILES") :
    mandatoryOk (doc7 gd od d opts bls mol ext) = true := by
  unfold mandatoryOk doc7 mandatoryNodes
  simp [buildOutput7, tag_mk, hopts, hmol, Elem.children]

lemma buildDoc6_ok_shape (gd od : String) (d : Dragon) (doc : Elem)
    (h : buildDoc6 gd od d = .ok doc) :
    mandatoryOk doc = true ∧ doc.attr "version" = some (some (toString d.version ++ ".0.0")) := by
  unfold buildDoc6 buildOptions6 at h
  cases hw : buildWeightElems d.Weights with
  | error e => simp only [hw] at h; simp at h
  | ok ws =>
    simp only [hw] at h
    cases hb : buildBlockElems 29 d.blocks with
    | error e => simp only [hb] at h; simp at h
    | ok bls =>
      simp only [hb] at h
      cases hm : buildMolfiles molFormats6 d with
      | error e => simp only [hm] at h; simp at h
      | ok mol =>
        simp only [hm] at h
        cases hx : buildExternal d with
        | error e => simp only [hx] at h; simp at h
        | ok ext =>
          simp only [hx, Except.ok.injEq] at h
          subst h
          exact ⟨mandatoryOk_doc6 gd od d _ bls mol ext rfl (buildMolfiles_ok_tag _ _ _ hm), rfl⟩

lemma buildDoc7_ok_shape (gd od : String) (d : Dragon) (doc : Elem)
    (h : buildDoc7 gd od d = .ok doc) :
    mandatoryOk doc = true ∧ doc.attr "version" = some (some (toString d.version ++ ".0.0")) := by
  unfold buildDoc7 buildOptions7 at h
  cases hw : buildWeightElems d.Weights with
  | error e => simp only [hw] at h; simp at h
  | ok ws =>
    simp only [hw] at h
    cases hb : buildBlockElems 30 d.blocks with
    | error e => simp only [hb] at h; simp at h
    | ok bls =>
      simp only [hb] at h
      cases hm : buildMolfiles molFormats7 d with
      | error e => simp only [hm] at h; simp at h
      | ok mol =>
        simp only [hm] at h
        cases hx : buildExternal d with
        | error e => simp only [hx] at h; simp at h
        | ok ext =>
          simp only [hx, Except.ok.injEq] at h
          subst h
          exact ⟨mandatoryOk_doc7 gd od d _ bls mol ext rfl (buildMolfiles_ok_tag _ _ _ hm), rfl⟩

lemma freshNew_written_shape (gd od : String) (d : Dragon) (p : String) (doc : Elem)
    (h : (freshNew gd od d).written = [(p, doc)]) :
    p = od ++ drsName ∧
    ((d.version = 6 ∧ buildDoc6 gd od d = .ok doc ∧
        (freshNew gd od d).result = .ok { d with dragon := some doc, drs_name := some drsName }) ∨
     (d.version = 7 ∧
        buildDoc7 gd od { d with Missing_String := msAdj d.Missing_String } = .ok doc ∧
        (freshNew gd od d).result = .ok { d with
          Missing_String := msAdj d.Missing_String
          dragon := some doc
          drs_name := some drsName })) := by
  by_cases h6 : d.version = 6
  · rw [freshNew6 gd od d h6] at h ⊢
    cases hb : buildDoc6 gd od d with
    | error e => simp only [hb] at h; simp at h
    | ok doc' =>
      simp only [hb] at h ⊢
      simp only [List.cons.injEq, Prod.mk.injEq, and_true] at h
      refine ⟨h.1.symm, Or.inl ⟨h6, ?_, ?_⟩⟩
      · rw [h.2]
      · rw [h.2]
  · by_cases h7 : d.version = 7
    · rw [freshNew7 gd od d h7] at h ⊢
      cases hb : buildDoc7 gd od { d with Missing_String := msAdj d.Missing_String } with
      | error e => simp only [hb] at h; simp at h
      | ok doc' =>
        simp only [hb] at h ⊢
        simp only [List.cons.injEq, Prod.mk.injEq, and_true] at h
        refine ⟨h.1.symm, Or.inr ⟨h7, ?_, ?_⟩⟩
        · rw [h.2]
        · rw [h.2]
    · rw [freshNewOther gd od d h6 h7] at h
      simp at h



/-- C1: for a fresh build (`script = 'new'`) with a version other than 6 or 7 on
a fresh object, `script_wizard` emits the unsupported-version warning and
writes no file, but — contrary to the claim that it does not raise — it then
raises `AttributeError` at the `data_path` read-back of line 339, because
`self.dragon` was never assigned. -/
theorem claimC1_unsupported_version (gd : String) (fs : String → Option Elem) (v : Int)
    (h6 : v ≠ 6) (h7 : v ≠ 7) :
    script_wizard gd fs (defaultDragon v) "new" "./" =
      ⟨.error (.attributeError "dragon"), [versionWarnMsg], []⟩ := by
  rw [script_wizard_eq gd fs _ "new" "./" '/' rfl, if_pos rfl,
      freshNewOther _ _ _ h6 h7]
  rfl

/-- Witness for C1 at the concrete unsupported version 5. -/
theorem claimC1_unsupported_version_witness :
    script_wizard "2015-12-31" (fun _ => none) (defaultDragon 5) "new" "./" =
      ⟨.error (.attributeError "dragon"), [versionWarnMsg], []⟩ :=
  claimC1_unsupported_version "2015-12-31" (fun _ => none) 5 (by decide) (by decide)

/-- C10: in a version-7 fresh build with the default `Missing_String = "NaN"`,
the value is silently rewritten to `"na"` both on the object and in the
serialized `Missing_String` element, while a version-6 build serializes
`"NaN"` unchanged. -/
theorem claimC10_missing_string (gd : String) (fs : String → Option Elem) :
    (∃ d' doc opts e,
      (script_wizard gd fs (defaultDragon 7) "new" "./").result = .ok d' ∧
      d'.Missing_String = "na" ∧ d'.dragon = some doc ∧
      doc.findChild "OPTIONS" = some opts ∧ opts.findChild "Missing_String" = some e ∧
      e.attr "value" = some (some "na")) ∧
    (∃ d' doc opts e,
      (script_wizard gd fs (defaultDragon 6) "new" "./").result = .ok d' ∧
      d'.Missing_String = "NaN" ∧ d'.dragon = some doc ∧
      doc.findChild "OPTIONS" = some opts ∧ opts.findChild "Missing_String" = some e ∧
      e.attr "value" = some (some "NaN")) := by
  exact ⟨⟨_, _, _, _, rfl, rfl, rfl, rfl, rfl, rfl⟩,
         ⟨_, _, _, _, rfl, rfl, rfl, rfl, rfl, rfl⟩⟩

/-- Counterexample to C2 as stated: in a default fresh build the
`OUTPUT/SaveFile` element's `value` attribute is the boolean string "true",
which is not the stored `data_path` ("./Dragon_descriptors.txt"); the path is
read from `OUTPUT/SaveFilePath`, not `OUTPUT/SaveFile`. -/
theorem claimC2_counterexample :
    ∃ d' doc outp sf,
      (script_wizard "2015-12-31" (fun _ => none) (defaultDragon 6) "new" "./").result = .ok d' ∧
      d'.dragon = some doc ∧ doc.findChild "OUTPUT" = some outp ∧
      outp.findChild "SaveFile" = some sf ∧
      sf.attr "value" = some (some "true") ∧
      d'.data_path = some (some "./Dragon_descriptors.txt") ∧
      (some "true" : Option String) ≠ some "./Dragon_descriptors.txt" := by
  exact ⟨_, _, _, _, rfl, rfl, rfl, rfl, rfl, rfl, by decide⟩

/-- C2 (amended): for every successful build (fresh or loaded) the stored
`data_path` is read back from the `value` attribute of the
`OUTPUT/SaveFilePath` element of the document; and for a fresh build with
default options it equals the normalized output directory concatenated with
the default save-file name "Dragon_descriptors.txt". -/
theorem claimC2_amended :
    (∀ (gd : String) (fs : String → Option Elem) (d : Dragon) (script od : String) (d' : Dragon),
      (script_wizard gd fs d script od).result = .ok d' →
      ∃ doc outp sfp v, d'.dragon = some doc ∧ doc.findChild "OUTPUT" = some outp ∧
        outp.findChild "SaveFilePath" = some sfp ∧ sfp.attr "value" = some v ∧
        d'.data_path = some v) ∧
    (∀ (gd : String) (fs : String → Option Elem) (od : String) (c : Char),
      lastChar od = some c →
      ∃ d', (script_wizard gd fs (defaultDragon 6) "new" od).result = .ok d' ∧
        d'.data_path = some (some (normDir od ++ "Dragon_descriptors.txt"))) := by
  constructor
  · intro gd fs d script od d' h
    cases hl : lastChar od with
    | none => rw [script_wizard_empty gd fs d script od hl] at h; simp at h
    | some c =>
      rw [script_wizard_eq gd fs d script od c hl] at h
      obtain ⟨d₁, h₁, h₂⟩ := withReadback_ok_inv _ _ h
      obtain ⟨doc, outp, sfp, v, hd, ho, hs, hv, rfl⟩ := dataPathReadback_shape _ _ h₂
      exact ⟨doc, outp, sfp, v, hd, ho, hs, hv, rfl⟩
  · intro gd fs od c hl
    rw [script_wizard_eq gd fs _ "new" od c hl, if_pos rfl]
    exact ⟨_, rfl, rfl⟩

/-- Witness for C2 (amended) at a concrete default version-6 build. -/
theorem claimC2_amended_witness :
    ∃ d', (script_wizard "2015-12-31" (fun _ => none) (defaultDragon 6) "new" "./").result = .ok d' ∧
      d'.data_path = some (some (normDir "./" ++ "Dragon_descriptors.txt")) :=
  claimC2_amended.2 "2015-12-31" (fun _ => none) "./" '/' rfl



/-- Counterexample to C9 as stated: for the non-empty input "out//" the
stored output directory is "out//", which does not end with exactly one
trailing separator (its last two characters are separators). -/
theorem claimC9_counterexample :
    ∃ d', (script_wizard "2015-12-31" (fun _ => none) (defaultDragon 6) "new" "out//").result = .ok d' ∧
      d'.output_directory = some "out//" ∧
      ("out//" ≠ "") ∧
      ¬(("out//".data.getLast? = some '/') ∧ ¬("out//".data.dropLast.getLast? = some '/')) := by
  refine ⟨_, rfl, rfl, by decide, by decide⟩

/-- C9 (amended): for every non-empty output directory, the stored output
directory is the normalized input; when the input does not end with a
separator exactly one is appended (so the result ends with exactly one), and
when it already ends with a separator it is stored unchanged (no duplicate
separator introduced). -/
theorem claimC9_amended (gd : String) (fs : String → Option Elem) (d : Dragon)
    (script od : String) (d' : Dragon) (_hne : od ≠ "")
    (h : (script_wizard gd fs d script od).result = .ok d') :
    d'.output_directory = some (normDir od) ∧
    (od.data.getLast? ≠ some '/' →
      normDir od = od ++ "/" ∧ (normDir od).data.getLast? = some '/' ∧
        ¬((normDir od).data.dropLast.getLast? = some '/')) ∧
    (od.data.getLast? = some '/' → normDir od = od) := by
  refine ⟨?_, ?_, ?_⟩
  · cases hl : lastChar od with
    | none => rw [script_wizard_empty gd fs d script od hl] at h; simp at h
    | some c =>
      rw [script_wizard_eq gd fs d script od c hl] at h
      obtain ⟨d₁, h₁, h₂⟩ := withReadback_ok_inv _ _ h
      obtain ⟨doc, outp, sfp, v, hd, ho, hs, hv, rfl⟩ := dataPathReadback_shape _ _ h₂
      show d₁.output_directory = some (normDir od)
      by_cases hscript : script = "new"
      · rw [if_pos hscript] at h₁
        rw [freshNew_ok_od _ _ _ _ h₁]
      · rw [if_neg hscript] at h₁
        rw [loadExisting_ok_od _ _ _ _ h₁]
  · intro hnl
    have hn : normDir od = od ++ "/" := by
      unfold normDir lastChar
      rw [if_neg hnl]
    have hdata : (od ++ "/").data = od.data ++ ['/'] := by
      rw [String.data_append]
    refine ⟨hn, ?_, ?_⟩
    · rw [hn, hdata, List.getLast?_concat]
    · rw [hn, hdata, List.dropLast_concat]
      exact hnl
  · intro hl
    unfold normDir lastChar
    rw [if_pos hl]

/-- Witness for C9 (amended) at the concrete input "a". -/
theorem claimC9_amended_witness :
    ∃ d', (script_wizard "x" (fun _ => none) (defaultDragon 6) "new" "a").result = .ok d' ∧
      (d'.output_directory = some (normDir "a") ∧
       ("a".data.getLast? ≠ some '/' →
         normDir "a" = "a" ++ "/" ∧ (normDir "a").data.getLast? = some '/' ∧
           ¬((normDir "a").data.dropLast.getLast? = some '/')) ∧
       ("a".data.getLast? = some '/' → normDir "a" = "a")) := by
  refine ⟨_, rfl, claimC9_amended "x" (fun _ => none) (defaultDragon 6) "new" "a" _ (by decide) rfl⟩



lemma doc6_findOUTPUT (gd od : String) (d : Dragon) (opts : Elem) (bls : List Elem) (mol : Elem)
    (ext : List Elem) (hopts : opts.tag = "OPTIONS") (hmol : mol.tag = "MOLFILES") :
    (doc6 gd od d opts bls mol ext).findChild "OUTPUT" = some (buildOutput6 od d) := by
  simp [doc6, Elem.findChild, Elem.children, List.find?, hopts, hmol, buildOutput6, tag_mk]

lemma doc7_findOUTPUT (gd od : String) (d : Dragon) (opts : Elem) (bls : List Elem) (mol : Elem)
    (ext : List Elem) (hopts : opts.tag = "OPTIONS") (hmol : mol.tag = "MOLFILES") :
    (doc7 gd od d opts bls mol ext).findChild "OUTPUT" = some (buildOutput7 od d) := by
  simp [doc7, Elem.findChild, Elem.children, List.find?, hopts, hmol, buildOutput7, tag_mk]

lemma buildOutput6_sfp (od : String) (d : Dragon) (hsf : d.SaveFile = true) :
    (buildOutput6 od d).findChild "SaveFilePath" = some (valEl "SaveFilePath" (od ++ d.SaveFilePath)) := by
  unfold buildOutput6
  rw [if_pos hsf]
  by_cases hp : d.SaveProject = true
  · rw [if_pos hp]; rfl
  · rw [if_neg hp]; rfl

lemma buildOutput7_sfp (od : String) (d : Dragon) (hsf : d.SaveFile = true) :
    (buildOutput7 od d).findChild "SaveFilePath" = some (valEl "SaveFilePath" (od ++ d.SaveFilePath)) := by
  unfold buildOutput7
  rw [if_pos hsf]
  by_cases hp : d.SaveProject = true
  · rw [if_pos hp]; rfl
  · rw [if_neg hp]; rfl

lemma sw_new6_ok (gd : String) (fs : String → Option Elem) (d : Dragon) (od : String) (c : Char)
    {ws bls : List Elem} {mol : Elem} {ext : List Elem}
    (hlc : lastChar od = some c) (h6 : d.version = 6)
    (hw : buildWeightElems d.Weights = .ok ws)
    (hb : buildBlockElems 29 d.blocks = .ok bls)
    (hm : buildMolfiles molFormats6 d = .ok mol)
    (hx : buildExternal d = .ok ext)
    (hsf : d.SaveFile = true) :
    (script_wizard gd fs d "new" od).result = .ok { d with
        output_directory := some (normDir od)
        dragon := some (doc6 gd (normDir od) { d with output_directory := some (normDir od) }
          (.mk "OPTIONS" [] (opts6fields { d with output_directory := some (normDir od) } ws))
          bls mol ext)
        drs_name := some drsName
        data_path := some (some (normDir od ++ d.SaveFilePath)) } := by
  have hmt := buildMolfiles_ok_tag _ _ _ hm
  have hdoc := buildDoc6_ok gd (normDir od)
    { d with output_directory := some (normDir od) } ws bls mol ext hw hb hm hx
  rw [script_wizard_eq gd fs d "new" od c hlc, if_pos rfl,
      freshNew6 gd (normDir od) { d with output_directory := some (normDir od) } h6, hdoc]
  dsimp only [withReadback]
  exact dataPathReadback_of_facts _ _ _ _ _ rfl
    (doc6_findOUTPUT _ _ _ _ _ _ _ rfl hmt) (buildOutput6_sfp _ _ hsf) rfl



lemma sw_new7_ok (gd : String) (fs : String → Option Elem) (d : Dragon) (od : String) (c : Char)
    {ws bls : List Elem} {mol : Elem} {ext : List Elem}
    (hlc : lastChar od = some c) (h7 : d.version = 7)
    (hw : buildWeightElems d.Weights = .ok ws)
    (hb : buildBlockElems 30 d.blocks = .ok bls)
    (hm : buildMolfiles molFormats7 d = .ok mol)
    (hx : buildExternal d = .ok ext)
    (hsf : d.SaveFile = true) :
    (script_wizard gd fs d "new" od).result = .ok { d with
        output_directory := some (normDir od)
        Missing_String := msAdj d.Missing_String
        dragon := some (doc7 gd (normDir od)
          { d with
              output_directory := some (normDir od)
              Missing_String := msAdj d.Missing_String }
          (.mk "OPTIONS" [] (opts7fields
            { d with
                output_directory := some (normDir od)
                Missing_String := msAdj d.Missing_String } ws)) bls mol ext)
        drs_name := some drsName
        data_path := some (some (normDir od ++ d.SaveFilePath)) } := by
  have hmt := buildMolfiles_ok_tag _ _ _ hm
  have hdoc := buildDoc7_ok gd (normDir od)
    { d with
        output_directory := some (normDir od)
        Missing_String := msAdj d.Missing_String } ws bls mol ext hw hb hm hx
  rw [script_wizard_eq gd fs d "new" od c hlc, if_pos rfl,
      freshNew7 gd (normDir od) { d with output_directory := some (normDir od) } h7, hdoc]
  dsimp only [withReadback]
  exact dataPathReadback_of_facts _ _ _ _ _ rfl
    (doc7_findOUTPUT _ _ _ _ _ _ _ rfl hmt) (buildOutput7_sfp _ _ hsf) rfl

lemma sw_new6_err (gd : String) (fs : String → Option Elem) (d : Dragon) (od : String) (c : Char)
    (e : PyError) (hlc : lastChar od = some c) (h6 : d.version = 6)
    (hdoc : buildDoc6 gd (normDir od) { d with output_directory := some (normDir od) } = .error e) :
    (script_wizard gd fs d "new" od).result = .error e := by
  rw [script_wizard_eq gd fs d "new" od c hlc, if_pos rfl,
      freshNew6 gd (normDir od) { d with output_directory := some (normDir od) } h6, hdoc]
  rfl

lemma sw_new7_err (gd : String) (fs : String → Option Elem) (d : Dragon) (od : String) (c : Char)
    (e : PyError) (hlc : lastChar od = some c) (h7 : d.version = 7)
    (hdoc : buildDoc7 gd (normDir od)
      { d with
          output_directory := some (normDir od)
          Missing_String := msAdj d.Missing_String } = .error e) :
    (script_wizard gd fs d "new" od).result = .error e := by
  rw [script_wizard_eq gd fs d "new" od c hlc, if_pos rfl,
      freshNew7 gd (normDir od) { d with output_directory := some (normDir od) } h7, hdoc]
  rfl



/-- C3: with all other options at their defaults, a fresh build succeeds
under both supported versions whenever every weight belongs to the six-item
vocabulary, and raises a `ValueError` whenever some weight lies outside it. -/
theorem claimC3_weights (gd : String) (fs : String → Option Elem) (ws : List String) :
    ((∀ w ∈ ws, w ∈ validWeights) →
      (∃ d', (script_wizard gd fs { defaultDragon 6 with Weights := ws } "new" "./").result = .ok d') ∧
      (∃ d', (script_wizard gd fs { defaultDragon 7 with Weights := ws } "new" "./").result = .ok d')) ∧
    ((∃ w ∈ ws, w ∉ validWeights) →
      (∃ m, (script_wizard gd fs { defaultDragon 6 with Weights := ws } "new" "./").result =
        .error (.valueError m)) ∧
      (∃ m, (script_wizard gd fs { defaultDragon 7 with Weights := ws } "new" "./").result =
        .error (.valueError m))) := by
  constructor
  · intro h
    have hW := buildWeightElems_ok ws h
    exact ⟨⟨_, sw_new6_ok gd fs { defaultDragon 6 with Weights := ws } "./" '/' rfl rfl hW rfl rfl rfl rfl⟩,
           ⟨_, sw_new7_ok gd fs { defaultDragon 7 with Weights := ws } "./" '/' rfl rfl hW rfl rfl rfl rfl⟩⟩
  · intro h
    obtain ⟨m, hm⟩ := buildWeightElems_err ws h
    exact ⟨⟨m, sw_new6_err gd fs { defaultDragon 6 with Weights := ws } "./" '/' _ rfl rfl
              (buildDoc6_errW _ _ _ _ hm)⟩,
           ⟨m, sw_new7_err gd fs { defaultDragon 7 with Weights := ws } "./" '/' _ rfl rfl
              (buildDoc7_errW _ _ _ _ hm)⟩⟩

/-- Witness for C3 at a valid duplicate list and at an invalid list. -/
theorem claimC3_weights_witness :
    (∃ d', (script_wizard "x" (fun _ => none) { defaultDragon 6 with Weights := ["Mass", "Mass"] } "new" "./").result = .ok d') ∧
    (∃ m, (script_wizard "x" (fun _ => none) { defaultDragon 7 with Weights := ["Mass", "Bogus"] } "new" "./").result =
      .error (.valueError m)) :=
  ⟨((claimC3_weights "x" (fun _ => none) ["Mass", "Mass"]).1 (by decide)).1,
   ((claimC3_weights "x" (fun _ => none) ["Mass", "Bogus"]).2 ⟨"Bogus", by decide, by decide⟩).2⟩



lemma buildMolfiles_stdin_ok (fmts : List String) (d : Dragon) (hstdin : d.molInput = "stdin")
    (hfmt : d.molInputFormat ∈ fmts) :
    buildMolfiles fmts d =
      .ok (.mk "MOLFILES" [] [valEl "molInput" d.molInput, valEl "molInputFormat" d.molInputFormat]) := by
  unfold buildMolfiles
  rw [if_pos hstdin, if_pos hfmt]

lemma buildMolfiles_stdin_err (fmts : List String) (d : Dragon) (hstdin : d.molInput = "stdin")
    (hfmt : d.molInputFormat ∉ fmts) :
    ∃ msg, buildMolfiles fmts d = .error (.valueError msg) := by
  unfold buildMolfiles
  rw [if_pos hstdin, if_neg hfmt]
  exact ⟨_, rfl⟩

lemma buildMolfiles_file (fmts : List String) (d : Dragon) (f : String)
    (hfile : d.molInput = "file") (hmf : d.molFile = some f) :
    buildMolfiles fmts d =
      .ok (.mk "MOLFILES" [] [valEl "molInput" d.molInput, valEl "molFile" f]) := by
  unfold buildMolfiles mkValEl
  rw [if_neg (by rw [hfile]; decide), if_pos hfile, hmf]

lemma buildMolfiles_file_none (fmts : List String) (d : Dragon)
    (hfile : d.molInput = "file") (hmf : d.molFile = none) :
    buildMolfiles fmts d = .error .typeError := by
  unfold buildMolfiles mkValEl
  rw [if_neg (by rw [hfile]; decide), if_pos hfile, hmf]

lemma buildMolfiles_bad (fmts : List String) (d : Dragon)
    (h1 : d.molInput ≠ "stdin") (h2 : d.molInput ≠ "file") :
    buildMolfiles fmts d = .error (.valueError "Enter a valid molInput: 'stdin' or 'file'") := by
  unfold buildMolfiles
  rw [if_neg h1, if_neg h2]

/-- C4: with all other options at their defaults, a fresh build succeeds
whenever every block id lies in the version-specific range (1-29 for
version 6, 1-30 for version 7), and raises a `ValueError` whenever some id
falls outside that range. -/
theorem claimC4_blocks (gd : String) (fs : String → Option Elem) (bs : List Int) :
    ((∀ i ∈ bs, 1 ≤ i ∧ i ≤ 29) →
      ∃ d', (script_wizard gd fs { defaultDragon 6 with blocks := bs } "new" "./").result = .ok d') ∧
    ((∃ i ∈ bs, i < 1 ∨ i > 29) →
      ∃ m, (script_wizard gd fs { defaultDragon 6 with blocks := bs } "new" "./").result =
        .error (.valueError m)) ∧
    ((∀ i ∈ bs, 1 ≤ i ∧ i ≤ 30) →
      ∃ d', (script_wizard gd fs { defaultDragon 7 with blocks := bs } "new" "./").result = .ok d') ∧
    ((∃ i ∈ bs, i < 1 ∨ i > 30) →
      ∃ m, (script_wizard gd fs { defaultDragon 7 with blocks := bs } "new" "./").result =
        .error (.valueError m)) := by
  refine ⟨?_, ?_, ?_, ?_⟩
  · intro h
    exact ⟨_, sw_new6_ok gd fs { defaultDragon 6 with blocks := bs } "./" '/' rfl rfl rfl
      (buildBlockElems_ok 29 bs h) rfl rfl rfl⟩
  · intro h
    obtain ⟨m, hm⟩ := buildBlockElems_err 29 bs h
    exact ⟨m, sw_new6_err gd fs { defaultDragon 6 with blocks := bs } "./" '/' _ rfl rfl
      (buildDoc6_errB _ _ _ _ _ rfl hm)⟩
  · intro h
    exact ⟨_, sw_new7_ok gd fs { defaultDragon 7 with blocks := bs } "./" '/' rfl rfl rfl
      (buildBlockElems_ok 30 bs h) rfl rfl rfl⟩
  · intro h
    obtain ⟨m, hm⟩ := buildBlockElems_err 30 bs h
    exact ⟨m, sw_new7_err gd fs { defaultDragon 7 with blocks := bs } "./" '/' _ rfl rfl
      (buildDoc7_errB _ _ _ _ _ rfl hm)⟩

/-- Witness for C4 at ids 1,2,30 (valid for version 7) and at the
out-of-range ids 0 and 31. -/
theorem claimC4_blocks_witness :
    (∃ d', (script_wizard "x" (fun _ => none) { defaultDragon 7 with blocks := [1, 2, 30] } "new" "./").result = .ok d') ∧
    (∃ m, (script_wizard "x" (fun _ => none) { defaultDragon 7 with blocks := [0] } "new" "./").result =
      .error (.valueError m)) ∧
    (∃ m, (script_wizard "x" (fun _ => none) { defaultDragon 7 with blocks := [31] } "new" "./").result =
      .error (.valueError m)) :=
  ⟨(claimC4_blocks "x" (fun _ => none) [1, 2, 30]).2.2.1 (by decide),
   (claimC4_blocks "x" (fun _ => none) [0]).2.2.2 ⟨0, by decide, by decide⟩,
   (claimC4_blocks "x" (fun _ => none) [31]).2.2.2 ⟨31, by decide, by decide⟩⟩



/-- Counterexample for C5: with input source "file" and the file path left
at its default absent value, the fresh build does not serialize a
none-valued `molFile` field; the serializer raises a `TypeError` for the
none attribute value and no document file is written. -/
theorem claimC5_counterexample :
    (script_wizard "x" (fun _ => none) { defaultDragon 6 with molInput := "file" } "new" "./").result
      = .error .typeError ∧
    (script_wizard "x" (fun _ => none) { defaultDragon 6 with molInput := "file" } "new" "./").written
      = [] := by
  constructor
  · exact sw_new6_err "x" (fun _ => none) { defaultDragon 6 with molInput := "file" } "./" '/'
      .typeError rfl rfl
      (buildDoc6_errM _ _ _ _ _ _ rfl rfl (buildMolfiles_file_none molFormats6 _ rfl rfl))
  · rfl

/-- C5 (amended): in a fresh build with input source "stdin" the molecule
input format is validated against the version-specific allowed list and,
when valid, appears verbatim as the `molInputFormat` value in the
`MOLFILES` section; with input source "file" a `molFile` field carrying the
supplied path is serialized when one is given, while an absent path makes
the serializer raise a `TypeError` for the none-valued attribute; any other
input-source value raises a `ValueError`. -/
theorem claimC5_molinput (gd : String) (fs : String → Option Elem) (mf : String)
    (mfile : String) (mi : String) :
    ((mf ∈ molFormats6) →
      ∃ d' doc m e,
        (script_wizard gd fs { defaultDragon 6 with molInputFormat := mf } "new" "./").result = .ok d' ∧
        d'.dragon = some doc ∧ doc.findChild "MOLFILES" = some m ∧
        m.findChild "molInputFormat" = some e ∧ e.attr "value" = some (some mf)) ∧
    ((mf ∉ molFormats6) →
      ∃ msg, (script_wizard gd fs { defaultDragon 6 with molInputFormat := mf } "new" "./").result =
        .error (.valueError msg)) ∧
    (∃ d' doc m e,
      (script_wizard gd fs { defaultDragon 6 with molInput := "file", molFile := some mfile } "new" "./").result = .ok d' ∧
      d'.dragon = some doc ∧ doc.findChild "MOLFILES" = some m ∧
      m.findChild "molFile" = some e ∧ e.attr "value" = some (some mfile)) ∧
    ((script_wizard gd fs { defaultDragon 6 with molInput := "file", molFile := none } "new" "./").result =
      .error .typeError) ∧
    (mi ≠ "stdin" → mi ≠ "file" →
      ∃ msg, (script_wizard gd fs { defaultDragon 6 with molInput := mi } "new" "./").result =
        .error (.valueError msg)) ∧
    ((mf ∈ molFormats7) →
      ∃ d' doc m e,
        (script_wizard gd fs { defaultDragon 7 with molInputFormat := mf } "new" "./").result = .ok d' ∧
        d'.dragon = some doc ∧ doc.findChild "MOLFILES" = some m ∧
        m.findChild "molInputFormat" = some e ∧ e.attr "value" = some (some mf)) ∧
    ((mf ∉ molFormats7) →
      ∃ msg, (script_wizard gd fs { defaultDragon 7 with molInputFormat := mf } "new" "./").result =
        .error (.valueError msg)) ∧
    (∃ d' doc m e,
      (script_wizard gd fs { defaultDragon 7 with molInput := "file", molFile := some mfile } "new" "./").result = .ok d' ∧
      d'.dragon = some doc ∧ doc.findChild "MOLFILES" = some m ∧
      m.findChild "molFile" = some e ∧ e.attr "value" = some (some mfile)) ∧
    ((script_wizard gd fs { defaultDragon 7 with molInput := "file", molFile := none } "new" "./").result =
      .error .typeError) ∧
    (mi ≠ "stdin" → mi ≠ "file" →
      ∃ msg, (script_wizard gd fs { defaultDragon 7 with molInput := mi } "new" "./").result =
        .error (.valueError msg)) := by
  refine ⟨?_, ?_, ?_, ?_, ?_, ?_, ?_, ?_, ?_, ?_⟩
  · intro h
    exact ⟨_, _, _, _,
      sw_new6_ok gd fs { defaultDragon 6 with molInputFormat := mf } "./" '/' rfl rfl rfl rfl
        (buildMolfiles_stdin_ok molFormats6 _ rfl h) rfl rfl,
      rfl, rfl, rfl, rfl⟩
  · intro h
    obtain ⟨msg, hm⟩ := buildMolfiles_stdin_err molFormats6
      { defaultDragon 6 with molInputFormat := mf } rfl h
    exact ⟨msg, sw_new6_err gd fs { defaultDragon 6 with molInputFormat := mf } "./" '/' _ rfl rfl
      (buildDoc6_errM _ _ _ _ _ _ rfl rfl hm)⟩
  · exact ⟨_, _, _, _,
      sw_new6_ok gd fs { defaultDragon 6 with molInput := "file", molFile := some mfile } "./" '/'
        rfl rfl rfl rfl (buildMolfiles_file molFormats6 _ mfile rfl rfl) rfl rfl,
      rfl, rfl, rfl, rfl⟩
  · exact sw_new6_err gd fs { defaultDragon 6 with molInput := "file", molFile := none } "./" '/'
      .typeError rfl rfl
      (buildDoc6_errM _ _ _ _ _ _ rfl rfl (buildMolfiles_file_none molFormats6 _ rfl rfl))
  · intro h1 h2
    exact ⟨_, sw_new6_err gd fs { defaultDragon 6 with molInput := mi } "./" '/' _ rfl rfl
      (buildDoc6_errM _ _ _ _ _ _ rfl rfl (buildMolfiles_bad molFormats6 _ h1 h2))⟩
  · intro h
    exact ⟨_, _, _, _,
      sw_new7_ok gd fs { defaultDragon 7 with molInputFormat := mf } "./" '/' rfl rfl rfl rfl
        (buildMolfiles_stdin_ok molFormats7 _ rfl h) rfl rfl,
      rfl, rfl, rfl, rfl⟩
  · intro h
    obtain ⟨msg, hm⟩ := buildMolfiles_stdin_err molFormats7
      { defaultDragon 7 with molInputFormat := mf } rfl h
    exact ⟨msg, sw_new7_err gd fs { defaultDragon 7 with molInputFormat := mf } "./" '/' _ rfl rfl
      (buildDoc7_errM _ _ _ _ _ _ rfl rfl hm)⟩
  · exact ⟨_, _, _, _,
      sw_new7_ok gd fs { defaultDragon 7 with molInput := "file", molFile := some mfile } "./" '/'
        rfl rfl rfl rfl (buildMolfiles_file molFormats7 _ mfile rfl rfl) rfl rfl,
      rfl, rfl, rfl, rfl⟩
  · exact sw_new7_err gd fs { defaultDragon 7 with molInput := "file", molFile := none } "./" '/'
      .typeError rfl rfl
      (buildDoc7_errM _ _ _ _ _ _ rfl rfl (buildMolfiles_file_none molFormats7 _ rfl rfl))
  · intro h1 h2
    exact ⟨_, sw_new7_err gd fs { defaultDragon 7 with molInput := mi } "./" '/' _ rfl rfl
      (buildDoc7_errM _ _ _ _ _ _ rfl rfl (buildMolfiles_bad molFormats7 _ h1 h2))⟩

/-- Witness for C5: "CML" accepted by version 7 and rejected by version 6,
and the input source "pipe" rejected. -/
theorem claimC5_molinput_witness :
    (∃ d' doc m e,
      (script_wizard "x" (fun _ => none) { defaultDragon 7 with molInputFormat := "CML" } "new" "./").result = .ok d' ∧
      d'.dragon = some doc ∧ doc.findChild "MOLFILES" = some m ∧
      m.findChild "molInputFormat" = some e ∧ e.attr "value" = some (some "CML")) ∧
    (∃ msg, (script_wizard "x" (fun _ => none) { defaultDragon 6 with molInputFormat := "CML" } "new" "./").result =
      .error (.valueError msg)) ∧
    (∃ msg, (script_wizard "x" (fun _ => none) { defaultDragon 6 with molInput := "pipe" } "new" "./").result =
      .error (.valueError msg)) :=
  ⟨(claimC5_molinput "x" (fun _ => none) "CML" "mols.smi" "pipe").2.2.2.2.2.1 (by decide),
   (claimC5_molinput "x" (fun _ => none) "CML" "mols.smi" "pipe").2.1 (by decide),
   (claimC5_molinput "x" (fun _ => none) "CML" "mols.smi" "pipe").2.2.2.2.1 (by decide) (by decide)⟩



/-- C7: in the document produced by a fresh build (with an external file
name supplied) the `EXTERNAL` section is present if and only if the
external toggle is true, and when present it contains exactly the four
fields fileName, delimiter, consecutiveDelimiter and MissingValue together;
when the toggle is false the section is entirely absent. -/
theorem claimC7_external (gd : String) (fs : String → Option Elem) (ext : Bool) (fn : String)
    (v : Int) (hv : v = 6 ∨ v = 7) :
    ∃ d' doc, (script_wizard gd fs { defaultDragon v with external := ext, fileName := some fn } "new" "./").result = .ok d' ∧
      d'.dragon = some doc ∧
      (ext = true →
        ∃ e, doc.findChild "EXTERNAL" = some e ∧
          e.children.map Elem.tag = ["fileName", "delimiter", "consecutiveDelimiter", "MissingValue"]) ∧
      (ext = false → doc.findChild "EXTERNAL" = none) := by
  rcases hv with rfl | rfl <;> cases ext
  · refine ⟨_, _,
      sw_new6_ok gd fs { defaultDragon 6 with external := false, fileName := some fn } "./" '/'
        rfl rfl rfl rfl rfl rfl rfl,
      rfl, ?_, ?_⟩
    · intro h; exact absurd h (by decide)
    · intro _; rfl
  · refine ⟨_, _,
      sw_new6_ok gd fs { defaultDragon 6 with external := true, fileName := some fn } "./" '/'
        rfl rfl rfl rfl rfl rfl rfl,
      rfl, ?_, ?_⟩
    · intro _; exact ⟨_, rfl, rfl⟩
    · intro h; exact absurd h (by decide)
  · refine ⟨_, _,
      sw_new7_ok gd fs { defaultDragon 7 with external := false, fileName := some fn } "./" '/'
        rfl rfl rfl rfl rfl rfl rfl,
      rfl, ?_, ?_⟩
    · intro h; exact absurd h (by decide)
    · intro _; rfl
  · refine ⟨_, _,
      sw_new7_ok gd fs { defaultDragon 7 with external := true, fileName := some fn } "./" '/'
        rfl rfl rfl rfl rfl rfl rfl,
      rfl, ?_, ?_⟩
    · intro _; exact ⟨_, rfl, rfl⟩
    · intro h; exact absurd h (by decide)

/-- Witness for C7 at version 7 with the external toggle on and file name
"ext.txt". -/
theorem claimC7_external_witness :
    ∃ d' doc, (script_wizard "x" (fun _ => none) { defaultDragon 7 with external := true, fileName := some "ext.txt" } "new" "./").result = .ok d' ∧
      d'.dragon = some doc ∧
      (true = true →
        ∃ e, doc.findChild "EXTERNAL" = some e ∧
          e.children.map Elem.tag = ["fileName", "delimiter", "consecutiveDelimiter", "MissingValue"]) ∧
      (true = false → doc.findChild "EXTERNAL" = none) :=
  claimC7_external "x" (fun _ => none) true "ext.txt" 7 (Or.inr rfl)

/-- C8: whenever a fresh build raises a validation error (`ValueError`), the
call persists no document file. -/
theorem claimC8_no_persist (gd : String) (fs : String → Option Elem) (d : Dragon) (od m : String)
    (h : (script_wizard gd fs d "new" od).result = .error (.valueError m)) :
    (script_wizard gd fs d "new" od).written = [] := by
  cases hl : lastChar od with
  | none => rw [script_wizard_empty gd fs d "new" od hl]
  | some c =>
    rw [script_wizard_eq gd fs d "new" od c hl] at h ⊢
    rw [if_pos rfl] at h ⊢
    rw [withReadback_written]
    exact freshNew_err_written _ _ _ _ (withReadback_valueError _ _ h)

/-- Witness for C8 at a concrete invalid-weight build. -/
theorem claimC8_no_persist_witness :
    (script_wizard "x" (fun _ => none) { defaultDragon 6 with Weights := ["Bad"] } "new" "./").written = [] :=
  claimC8_no_persist "x" (fun _ => none) { defaultDragon 6 with Weights := ["Bad"] } "./" _ rfl



lemma withReadback_error (o : Outcome) (e : PyError) (h : o.result = .error e) :
    (withReadback o).result = .error e := by
  unfold withReadback
  rw [h]
  exact h

lemma loadExisting_ok (fs : String → Option Elem) (d : Dragon) (script : String) (doc : Elem)
    (vs : String) (c : Char)
    (hfs : fs script = some doc) (hver : doc.attr "version" = some (some vs))
    (hhead : vs.data.head? = some c) (hman : mandatoryOk doc = true) :
    loadExisting fs d script =
      ⟨.ok { d with dragon := some doc, drs := some script },
       (if c = '6' ∨ c = '7' then [] else [loadWarnMsg]), []⟩ := by
  unfold loadExisting
  rw [hfs]
  dsimp only
  rw [hver]
  dsimp only
  rw [hhead]
  dsimp only
  rw [if_pos hman]

lemma loadExisting_mandatory_err (fs : String → Option Elem) (d : Dragon) (script : String)
    (doc : Elem) (vs : String) (c : Char)
    (hfs : fs script = some doc) (hver : doc.attr "version" = some (some vs))
    (hhead : vs.data.head? = some c) (hman : mandatoryOk doc = false) :
    (loadExisting fs d script).result = .error (.valueError mandatoryErrMsg) := by
  unfold loadExisting
  rw [hfs]
  dsimp only
  rw [hver]
  dsimp only
  rw [hhead]
  dsimp only
  rw [if_neg (by rw [hman]; decide)]



lemma withReadback_ok (d : Dragon) (w : List String) (wr : List (String × Elem)) :
    withReadback ⟨.ok d, w, wr⟩ = ⟨dataPathReadback d, w, wr⟩ := rfl

/-- C6: a fresh build that succeeds and persists its document yields a
document that passes the mandatory-section presence check, and loading that
same persisted document back through `script_wizard` succeeds without
raising; a loaded document missing any mandatory tag raises a fatal
`ValueError`. -/
theorem claimC6_roundtrip (gd od od₂ q : String) (fs : String → Option Elem)
    (d d₂ d₁ : Dragon) (p : String) (doc : Elem) (c₂ : Char)
    (h1 : (script_wizard gd fs d "new" od).result = .ok d₁)
    (h2 : (script_wizard gd fs d "new" od).written = [(p, doc)])
    (hq : q ≠ "new") (hod₂ : lastChar od₂ = some c₂) :
    mandatoryOk doc = true ∧
    (∃ d₃, (script_wizard gd (fun s => if s = q then some doc else none) d₂ q od₂).result = .ok d₃) ∧
    (∀ (doc' : Elem) (vs' : String) (c' : Char),
      doc'.attr "version" = some (some vs') → vs'.data.head? = some c' →
      mandatoryOk doc' = false →
      (script_wizard gd (fun s => if s = q then some doc' else none) d₂ q od₂).result =
        .error (.valueError mandatoryErrMsg)) := by
  have hpart3 : ∀ (doc' : Elem) (vs' : String) (c' : Char),
      doc'.attr "version" = some (some vs') → vs'.data.head? = some c' →
      mandatoryOk doc' = false →
      (script_wizard gd (fun s => if s = q then some doc' else none) d₂ q od₂).result =
        .error (.valueError mandatoryErrMsg) := by
    intro doc' vs' c' hver' hhead' hman'
    rw [script_wizard_eq gd _ d₂ q od₂ c₂ hod₂, if_neg hq]
    exact withReadback_error _ _
      (loadExisting_mandatory_err _ _ _ _ _ _ (by rw [if_pos rfl]) hver' hhead' hman')
  cases hl : lastChar od with
  | none =>
    rw [script_wizard_empty gd fs d "new" od hl] at h2
    simp at h2
  | some c =>
    rw [script_wizard_eq gd fs d "new" od c hl, if_pos rfl] at h1 h2
    rw [withReadback_written] at h2
    obtain ⟨hp, hor⟩ := freshNew_written_shape _ _ _ _ _ h2
    obtain ⟨dmid, hm1, hm2⟩ := withReadback_ok_inv _ _ h1
    rcases hor with ⟨hv6, hbd, hres⟩ | ⟨hv7, hbd, hres⟩
    · rw [hres] at hm1
      have hmid := Except.ok.inj hm1
      rw [← hmid] at hm2
      obtain ⟨docX, outp, sfp, v, hdX, ho, hs, hv, _⟩ := dataPathReadback_shape _ _ hm2
      have hdoc_eq : doc = docX := Option.some.inj hdX
      subst hdoc_eq
      obtain ⟨hman, hver⟩ := buildDoc6_ok_shape _ _ _ _ hbd
      have hv6' : ({ d with output_directory := some (normDir od) } : Dragon).version = 6 := hv6
      rw [hv6'] at hver
      refine ⟨hman, ?_, hpart3⟩
      rw [script_wizard_eq gd _ d₂ q od₂ c₂ hod₂, if_neg hq,
          loadExisting_ok _ _ _ _ _ '6' (by rw [if_pos rfl]) hver rfl hman,
          withReadback_ok]
      dsimp only
      exact ⟨_, dataPathReadback_of_facts _ _ _ _ _ rfl ho hs hv⟩
    · rw [hres] at hm1
      have hmid := Except.ok.inj hm1
      rw [← hmid] at hm2
      obtain ⟨docX, outp, sfp, v, hdX, ho, hs, hv, _⟩ := dataPathReadback_shape _ _ hm2
      have hdoc_eq : doc = docX := Option.some.inj hdX
      subst hdoc_eq
      obtain ⟨hman, hver⟩ := buildDoc7_ok_shape _ _ _ _ hbd
      have hv7' : ({ { d with output_directory := some (normDir od) } with
          Missing_String := msAdj d.Missing_String } : Dragon).version = 7 := hv7
      rw [hv7'] at hver
      refine ⟨hman, ?_, hpart3⟩
      rw [script_wizard_eq gd _ d₂ q od₂ c₂ hod₂, if_neg hq,
          loadExisting_ok _ _ _ _ _ '7' (by rw [if_pos rfl]) hver rfl hman,
          withReadback_ok]
      dsimp only
      exact ⟨_, dataPathReadback_of_facts _ _ _ _ _ rfl ho hs hv⟩



/-- Witness for C6 at a concrete default version-7 build reloaded through a
one-file store. -/
theorem claimC6_roundtrip_witness :
    ∃ p doc, (script_wizard "x" (fun _ => none) (defaultDragon 7) "new" "./").written = [(p, doc)] ∧
      (mandatoryOk doc = true ∧
       (∃ d₃, (script_wizard "x" (fun s => if s = "saved.drs" then some doc else none)
                 (defaultDragon 6) "saved.drs" "out/").result = .ok d₃) ∧
       (∀ (doc' : Elem) (vs' : String) (c' : Char),
         doc'.attr "version" = some (some vs') → vs'.data.head? = some c' →
         mandatoryOk doc' = false →
         (script_wizard "x" (fun s => if s = "saved.drs" then some doc' else none)
             (defaultDragon 6) "saved.drs" "out/").result =
           .error (.valueError mandatoryErrMsg))) := by
  refine ⟨_, _, rfl,
    claimC6_roundtrip "x" "./" "out/" "saved.drs" (fun _ => none) (defaultDragon 7)
      (defaultDragon 6) _ _ _ '/' rfl rfl (by decide) rfl⟩

end Cheml
